import Mathlib

/-!
Shallow embedding of the accounting-ratios application core (src/app.py):
the trial-balance normalizer `normalise_tb_columns`, the demo dataset
`load_demo_trial_balance`, and the ratio engine `calculate_ratios`.
Money amounts are embedded as exact rationals.
-/

set_option maxRecDepth 4000

/-- One trial-balance row in canonical form (one row of the normalised
DataFrame: columns code, name, debit, credit, balance). -/
structure AccountRecord where
  code : Nat
  name : String
  debit : ℚ
  credit : ℚ
  balance : ℚ
deriving DecidableEq

/-- The demo trial balance of `load_demo_trial_balance` (58 rows); the
balance column is computed as debit − credit, as in the source. -/
def load_demo_trial_balance : List AccountRecord :=
  [(21,   "Plant/Machinery Depreciation",            515.00,    0.00),
   (51,   "Motor Vehicles Depreciation",             757.44,    0.00),
   (1100, "Debtors Control Account",               89731.16,    0.00),
   (1103, "Prepayments",                            1350.00,    0.00),
   (1200, "Bank Current Account",                   3389.99,    0.00),
   (1210, "Bank Deposit Account",                   2000.00,    0.00),
   (1220, "Building Society Account",                505.03,    0.00),
   (1230, "Petty Cash",                              833.48,    0.00),
   (1240, "Company Credit Card",                       0.00, 10414.97),
   (2100, "Creditors Control Account",                 0.00, 36572.97),
   (2109, "Accruals",                                  0.00,    50.00),
   (2200, "Sales Tax Control Account",                 0.00, 22152.44),
   (2201, "Purchase Tax Control Account",              0.00, 11102.51),
   (2202, "VAT Liability",                             0.00, 14800.35),
   (2210, "P.A.Y.E.",                                  0.00,  2070.23),
   (2211, "National Insurance",                        0.00,  1003.49),
   (2220, "Net Wages",                                 0.00,     0.00),
   (2230, "Pension Fund",                              0.00,    80.00),
   (2300, "Loans",                                     0.00,   605.00),
   (2310, "Hire Purchase",                             0.00,  1800.00),
   (4000, "Sales North",                               0.00, 179507.53),
   (4001, "Sales South",                               0.00,   1230.00),
   (4002, "Sales Scotland",                            0.00,   8472.51),
   (4009, "Discounts Allowed",                        50.00,     0.00),
   (4900, "Miscellaneous Income",                      0.00,    60.03),
   (4905, "Distribution and Carriage",                870.00,     0.00),
   (5000, "Materials Purchased",                    45446.48,     0.00),
   (5001, "Materials Imported",                     23733.00,     0.00),
   (5002, "Miscellaneous Purchases",                 1158.53,     0.00),
   (5100, "Carriage",                                   1.26,     0.00),
   (6200, "Sales Promotions",                          50.00,     0.00),
   (6201, "Advertising",                              465.00,     0.00),
   (6202, "Gifts and Samples",                         15.00,     0.00),
   (6203, "P.R. (Literature & Brochures)",           1050.00,     0.00),
   (7000, "Gross Wages",                            24372.11,     0.00),
   (7006, "Employers N.I.",                          2495.43,     0.00),
   (7009, "Adjustments",                              170.00,     0.00),
   (7010, "SSP Reclaimed",                              0.00,    30.00),
   (7011, "SMP Reclaimed",                              0.00,    48.40),
   (7100, "Rent",                                   15750.00,     0.00),
   (7200, "Electricity",                              952.00,     0.00),
   (7300, "Fuel and Oil",                              15.00,     0.00),
   (7301, "Repairs and Servicing",                     88.18,     0.00),
   (7304, "Miscellaneous Motor Expenses",              67.00,     0.00),
   (7350, "Scale Charges",                             60.18,     0.00),
   (7400, "Travelling",                               201.00,     0.00),
   (7401, "Car Hire",                                 150.00,     0.00),
   (7402, "Hotels",                                   720.00,     0.00),
   (7403, "U.K. Entertainment",                         5.50,     0.00),
   (7500, "Printing",                                  51.60,     0.00),
   (7501, "Postage and Carriage",                       3.50,     0.00),
   (7502, "Telephone",                                128.72,     0.00),
   (7802, "Laundry",                                   50.00,     0.00),
   (7901, "Bank Charges",                               5.56,     0.00),
   (7903, "Loan Interest Paid",                        83.25,     0.00),
   (8003, "Vehicle Depreciation",                     757.44,     0.00),
   (8100, "Bad Debt Write Off",                         0.01,     0.00),
   (9999, "Mispostings Account",                      205.00,     0.00)
  ].map (fun t => ⟨t.1, t.2.1, t.2.2.1, t.2.2.2, t.2.2.1 - t.2.2.2⟩)

/-- Sum of the balance column over the rows whose code is in `codes`
(embeds `df[df["code"].isin(codes)]["balance"].sum()`). -/
def sumBal (df : List AccountRecord) (codes : List Nat) : ℚ :=
  ((df.filter (fun r => decide (r.code ∈ codes))).map (fun r => r.balance)).sum

/-- Sum of the balance column over the rows with the given code
(embeds the helper `bal` / `df[df["code"] == code]["balance"].sum()`). -/
def bal (df : List AccountRecord) (code : Nat) : ℚ :=
  ((df.filter (fun r => decide (r.code = code))).map (fun r => r.balance)).sum

def sales_codes : List Nat := [4000, 4001, 4002]

def cogs_codes : List Nat := [5000, 5001, 5002, 5100]

def expense_codes : List Nat :=
  [4905, 6200, 6201, 6202, 6203,
   7000, 7006, 7009,
   7100, 7200,
   7300, 7301, 7304,
   7350, 7400, 7401, 7402, 7403,
   7500, 7501, 7502,
   7802,
   7901,
   8003,
   8100]

def current_asset_codes : List Nat := [1100, 1103, 1200, 1210, 1220, 1230]

def current_liability_codes : List Nat :=
  [2100, 2109, 2200, 2201, 2202, 2210, 2211, 2220, 2230, 1240]

/-- `sales = -df[df["code"].isin(sales_codes)]["balance"].sum()`. -/
def salesOf (df : List AccountRecord) : ℚ := -(sumBal df sales_codes)

/-- `discounts = df[df["code"] == 4009]["balance"].sum()`. -/
def discountsOf (df : List AccountRecord) : ℚ := bal df 4009

/-- `net_sales = sales - discounts`. -/
def net_salesOf (df : List AccountRecord) : ℚ := salesOf df - discountsOf df

/-- `cogs = df[df["code"].isin(cogs_codes)]["balance"].sum()`. -/
def cogsOf (df : List AccountRecord) : ℚ := sumBal df cogs_codes

/-- `gross_profit = net_sales - cogs`. -/
def gross_profitOf (df : List AccountRecord) : ℚ := net_salesOf df - cogsOf df

/-- `gross_margin_pct = (gross_profit / net_sales * 100) if net_sales else None`. -/
def gross_margin_pctOf (df : List AccountRecord) : Option ℚ :=
  if net_salesOf df = 0 then none
  else some (gross_profitOf df / net_salesOf df * 100)

/-- `expenses = df[df["code"].isin(expense_codes)]["balance"].sum()`. -/
def expensesOf (df : List AccountRecord) : ℚ := sumBal df expense_codes

/-- `ssp_smp_recovery = -df[df["code"].isin([7010, 7011])]["balance"].sum()`. -/
def ssp_smp_recoveryOf (df : List AccountRecord) : ℚ := -(sumBal df [7010, 7011])

/-- `operating_expenses = expenses - ssp_smp_recovery`. -/
def operating_expensesOf (df : List AccountRecord) : ℚ :=
  expensesOf df - ssp_smp_recoveryOf df

/-- `misc_income = -bal(4900)`. -/
def misc_incomeOf (df : List AccountRecord) : ℚ := -(bal df 4900)

/-- `operating_profit = gross_profit - operating_expenses + misc_income`. -/
def operating_profitOf (df : List AccountRecord) : ℚ :=
  gross_profitOf df - operating_expensesOf df + misc_incomeOf df

/-- `operating_margin_pct = (operating_profit / net_sales * 100) if net_sales else None`. -/
def operating_margin_pctOf (df : List AccountRecord) : Option ℚ :=
  if net_salesOf df = 0 then none
  else some (operating_profitOf df / net_salesOf df * 100)

/-- `finance_cost = df[df["code"] == 7903]["balance"].sum()`. -/
def finance_costOf (df : List AccountRecord) : ℚ := bal df 7903

/-- `profit_before_tax = operating_profit - finance_cost`. -/
def profit_before_taxOf (df : List AccountRecord) : ℚ :=
  operating_profitOf df - finance_costOf df

/-- `net_margin_pct = (profit_before_tax / net_sales * 100) if net_sales else None`. -/
def net_margin_pctOf (df : List AccountRecord) : Option ℚ :=
  if net_salesOf df = 0 then none
  else some (profit_before_taxOf df / net_salesOf df * 100)

/-- `current_assets = df[df["code"].isin(current_asset_codes)]["balance"].sum()`. -/
def current_assetsOf (df : List AccountRecord) : ℚ := sumBal df current_asset_codes

/-- `current_liabilities = -df[df["code"].isin(current_liability_codes)]["balance"].sum()`. -/
def current_liabilitiesOf (df : List AccountRecord) : ℚ :=
  -(sumBal df current_liability_codes)

/-- `working_capital = current_assets - current_liabilities`. -/
def working_capitalOf (df : List AccountRecord) : ℚ :=
  current_assetsOf df - current_liabilitiesOf df

/-- `current_ratio = (current_assets / current_liabilities) if current_liabilities else None`. -/
def current_ratioOf (df : List AccountRecord) : Option ℚ :=
  if current_liabilitiesOf df = 0 then none
  else some (current_assetsOf df / current_liabilitiesOf df)

/-- `quick_assets = current_assets - df[df["code"] == 1103]["balance"].sum()`. -/
def quick_assetsOf (df : List AccountRecord) : ℚ :=
  current_assetsOf df - bal df 1103

/-- `quick_ratio = (quick_assets / current_liabilities) if current_liabilities else None`. -/
def quick_ratioOf (df : List AccountRecord) : Option ℚ :=
  if current_liabilitiesOf df = 0 then none
  else some (quick_assetsOf df / current_liabilitiesOf df)

/-- `debtors = bal(1100)`. -/
def debtorsOf (df : List AccountRecord) : ℚ := bal df 1100

/-- `creditors = -bal(2100)`. -/
def creditorsOf (df : List AccountRecord) : ℚ := -(bal df 2100)

/-- `receivables_days = (debtors / net_sales * 365) if net_sales else None`. -/
def receivables_daysOf (df : List AccountRecord) : Option ℚ :=
  if net_salesOf df = 0 then none
  else some (debtorsOf df / net_salesOf df * 365)

/-- `payables_days = (creditors / cogs * 365) if cogs else None`. -/
def payables_daysOf (df : List AccountRecord) : Option ℚ :=
  if cogsOf df = 0 then none
  else some (creditorsOf df / cogsOf df * 365)

/-- The 14-entry ratio mapping returned by `calculate_ratios`, in the order
the Python dict lists them; `none` is the undefined marker (Python `None`). -/
structure RatioResult where
  net_sales : ℚ
  gross_profit : ℚ
  gross_margin_pct : Option ℚ
  operating_profit : ℚ
  operating_margin_pct : Option ℚ
  profit_before_tax : ℚ
  net_margin_pct : Option ℚ
  current_assets : ℚ
  current_liabilities : ℚ
  working_capital : ℚ
  current_ratio : Option ℚ
  quick_ratio : Option ℚ
  receivables_days : Option ℚ
  payables_days : Option ℚ
deriving DecidableEq

/-- `calculate_ratios`: the ratio mapping together with the 7-row breakdown
table (Category, Amount), with cost of sales, operating expenses and finance
cost negated for charting, as in the source. -/
def calculate_ratios (df : List AccountRecord) :
    RatioResult × List (String × ℚ) :=
  (⟨net_salesOf df, gross_profitOf df, gross_margin_pctOf df,
    operating_profitOf df, operating_margin_pctOf df,
    profit_before_taxOf df, net_margin_pctOf df,
    current_assetsOf df, current_liabilitiesOf df, working_capitalOf df,
    current_ratioOf df, quick_ratioOf df,
    receivables_daysOf df, payables_daysOf df⟩,
   [("Net sales", net_salesOf df),
    ("Cost of sales", -(cogsOf df)),
    ("Gross profit", gross_profitOf df),
    ("Operating expenses", -(operating_expensesOf df)),
    ("Operating profit", operating_profitOf df),
    ("Finance cost", -(finance_costOf df)),
    ("Profit before tax", profit_before_taxOf df)])

/-! ## Normalizer (`normalise_tb_columns`) -/

/-- An uploaded table: the header row and the data rows, cells as raw text. -/
structure RawTable where
  headers : List String
  rows : List (List String)

/-- The two failure modes of the normalizer (the `ValueError` raised for
undetectable columns, and the failure on a code cell with no digits),
called `SchemaError` in the specification. -/
inductive SchemaError where
  | missingColumns
  | malformedCode
deriving DecidableEq

deriving instance DecidableEq for Except

/-- ASCII lower-casing of a string's characters (`str.lower()`; the header
keywords in play are ASCII). -/
def lowerL (l : List Char) : List Char :=
  l.map Char.toLower

/-- Strip whitespace from both ends (`str.strip()` semantics inside
`pd.to_numeric`). -/
def trimL (l : List Char) : List Char :=
  ((l.dropWhile Char.isWhitespace).reverse.dropWhile Char.isWhitespace).reverse

/-- Whether `needle` occurs at the start of `hay`. -/
def startsWithL : List Char → List Char → Bool
  | [], _ => true
  | _ :: _, [] => false
  | a :: as, b :: bs => a == b && startsWithL as bs

/-- Whether `needle` occurs as a contiguous run inside `hay`
(the Python `needle in hay` test on strings). -/
def containsSub (needle : List Char) : List Char → Bool
  | [] => needle.isEmpty
  | c :: t => startsWithL needle (c :: t) || containsSub needle t

/-- `keyword in c.lower()`: case-insensitive substring test of a keyword
against a header string. -/
def lowerContains (c kw : String) : Bool :=
  containsSub (lowerL kw.data) (lowerL c.data)

/-- `find_col`: the first header (by column order) containing the keyword
case-insensitively, as an index into the header list; `None` if no header
matches. -/
def find_col : List String → String → Option Nat
  | [], _ => none
  | c :: cs, kw =>
    if lowerContains c kw then some 0 else (find_col cs kw).map (fun i => i + 1)

/-- `code_col = find_col("code") or find_col("n/c") or find_col("nominal")`. -/
def code_colOf (headers : List String) : Option Nat :=
  find_col headers "code" <|> find_col headers "n/c" <|> find_col headers "nominal"

/-- Resolution of all four required columns; `none` when any of
code/name/debit/credit cannot be detected. -/
def resolve_cols (headers : List String) : Option (Nat × Nat × Nat × Nat) :=
  match code_colOf headers, find_col headers "name",
        find_col headers "debit", find_col headers "credit" with
  | some a, some b, some c, some d => some (a, b, c, d)
  | _, _, _, _ => none

/-- Numeric value of a list of decimal digit characters. -/
def digitsVal (l : List Char) : Nat :=
  l.foldl (fun a c => a * 10 + (c.toNat - 48)) 0

/-- `str.extract(r"(\d+)")` followed by `astype(int)`: the first maximal run
of decimal digits in the cell text, or `none` when the cell has no digit. -/
def firstDigitRun (s : String) : Option Nat :=
  let run := (s.data.dropWhile (fun c => !c.isDigit)).takeWhile Char.isDigit
  if run.isEmpty then none else some (digitsVal run)

/-- Unsigned decimal numeral: digits with an optional fractional part. -/
def parseUnsigned (l : List Char) : Option ℚ :=
  let ip := l.takeWhile Char.isDigit
  match l.dropWhile Char.isDigit with
  | [] => if ip.isEmpty then none else some (digitsVal ip)
  | '.' :: fp =>
    if fp.all Char.isDigit && !(ip.isEmpty && fp.isEmpty) then
      some ((digitsVal ip : ℚ) + (digitsVal fp : ℚ) / 10 ^ fp.length)
    else none
  | _ => none

/-- Model of `pd.to_numeric(cell)` on cell text: optional surrounding
whitespace, optional sign, decimal numeral; `none` when not numeric. -/
def parseDec (s : String) : Option ℚ :=
  match trimL s.data with
  | '-' :: t => (parseUnsigned t).map (fun q => -q)
  | '+' :: t => parseUnsigned t
  | l => parseUnsigned l

/-- `pd.to_numeric(cell, errors="coerce").fillna(0.0)`: lenient coercion,
non-numeric cells become `0.0`. -/
def to_numeric_fill (s : String) : ℚ :=
  (parseDec s).getD 0

/-- Build the canonical record of one row given the resolved column indexes
(code, name, debit, credit); fails when the code cell has no digit run. -/
def mkRecord (ci ni di cri : Nat) (row : List String) :
    Except SchemaError AccountRecord :=
  match firstDigitRun (row.getD ci "") with
  | none => .error .malformedCode
  | some n =>
    let d := to_numeric_fill (row.getD di "")
    let c := to_numeric_fill (row.getD cri "")
    .ok ⟨n, row.getD ni "", d, c, d - c⟩

/-- Whole-column construction: every row must succeed, the first failing
row aborts the whole normalization with its error. -/
def mapRows (f : List String → Except SchemaError AccountRecord) :
    List (List String) → Except SchemaError (List AccountRecord)
  | [] => .ok []
  | r :: rs =>
    match f r with
    | .error e => .error e
    | .ok a =>
      match mapRows f rs with
      | .error e => .error e
      | .ok as => .ok (a :: as)

/-- `normalise_tb_columns`: detect the four columns, then build one
`AccountRecord` per row, with `balance = debit - credit`. -/
def normalise_tb_columns (t : RawTable) :
    Except SchemaError (List AccountRecord) :=
  match resolve_cols t.headers with
  | none => .error .missingColumns
  | some (ci, ni, di, cri) => mapRows (mkRecord ci ni di cri) t.rows

/-- The union of every category code set the ratio engine consults
(revenue, discounts, cost of sales, operating expenses, wage recoveries,
misc income, finance cost, current assets, current liabilities,
prepayments, debtors control, creditors control). -/
def allCategoryCodes : List Nat :=
  sales_codes ++ [4009] ++ cogs_codes ++ expense_codes ++ [7010, 7011] ++
    [4900] ++ [7903] ++ current_asset_codes ++ current_liability_codes ++
    [1103] ++ [1100] ++ [2100]

/-! ## Helper lemmas -/

lemma demo_sales_eq : salesOf load_demo_trial_balance = 189210.04 := by
  simp +decide [salesOf, sumBal, load_demo_trial_balance, sales_codes]
  norm_num

lemma demo_net_sales_eq : net_salesOf load_demo_trial_balance = 189160.04 := by
  simp +decide [net_salesOf, salesOf, discountsOf, sumBal, bal,
    load_demo_trial_balance, sales_codes]
  norm_num

lemma demo_cogs_eq : cogsOf load_demo_trial_balance = 70339.27 := by
  simp +decide [cogsOf, sumBal, load_demo_trial_balance, cogs_codes]
  norm_num

lemma demo_current_assets_eq :
    current_assetsOf load_demo_trial_balance = 97809.66 := by
  simp +decide [current_assetsOf, sumBal, load_demo_trial_balance,
    current_asset_codes]
  norm_num

lemma demo_current_liabilities_eq :
    current_liabilitiesOf load_demo_trial_balance = 98246.96 := by
  simp +decide [current_liabilitiesOf, sumBal, load_demo_trial_balance,
    current_liability_codes]
  norm_num

lemma demo_debtors_eq : debtorsOf load_demo_trial_balance = 89731.16 := by
  simp +decide [debtorsOf, bal, load_demo_trial_balance]
  norm_num

lemma demo_creditors_eq : creditorsOf load_demo_trial_balance = 36572.97 := by
  simp +decide [creditorsOf, bal, load_demo_trial_balance]
  norm_num

/-! ## Claim theorems -/

/-- C1, counterexample: on the shipped 58-row demo trial balance the engine
produces net_sales = 189160.04, which does not agree with the claimed
189210.04 to 2 decimal places, and current_ratio is not greater than 1
(current liabilities exceed current assets). -/
theorem C1_demo_counterexample :
    ¬(|(calculate_ratios load_demo_trial_balance).1.net_sales - 189210.04| <
        0.005) ∧
    (calculate_ratios load_demo_trial_balance).1.current_ratio =
      some (97809.66 / 98246.96) ∧
    ¬((97809.66 : ℚ) / 98246.96 > 1) := by
  refine ⟨?_, ?_, by norm_num⟩
  · show ¬(|net_salesOf load_demo_trial_balance - 189210.04| < 0.005)
    rw [demo_net_sales_eq]
    norm_num
  · show current_ratioOf load_demo_trial_balance = some (97809.66 / 98246.96)
    rw [current_ratioOf, demo_current_assets_eq, demo_current_liabilities_eq]
    norm_num

/-- C1, amended: on the shipped demo trial balance, sales (before discounts)
is 189210.04 and net_sales is 189160.04 exactly; current_ratio is defined
and equals 97809.66 / 98246.96, which is strictly less than 1; and
payables_days and receivables_days are both defined and positive. -/
theorem C1_demo_amended :
    salesOf load_demo_trial_balance = 189210.04 ∧
    (calculate_ratios load_demo_trial_balance).1.net_sales = 189160.04 ∧
    (calculate_ratios load_demo_trial_balance).1.current_ratio =
      some (97809.66 / 98246.96) ∧
    (97809.66 : ℚ) / 98246.96 < 1 ∧
    (calculate_ratios load_demo_trial_balance).1.receivables_days =
      some (89731.16 / 189160.04 * 365) ∧
    (0 : ℚ) < 89731.16 / 189160.04 * 365 ∧
    (calculate_ratios load_demo_trial_balance).1.payables_days =
      some (36572.97 / 70339.27 * 365) ∧
    (0 : ℚ) < 36572.97 / 70339.27 * 365 := by
  refine ⟨demo_sales_eq, demo_net_sales_eq, ?_, by norm_num, ?_, by norm_num,
    ?_, by norm_num⟩
  · show current_ratioOf load_demo_trial_balance = some (97809.66 / 98246.96)
    rw [current_ratioOf, demo_current_assets_eq, demo_current_liabilities_eq]
    norm_num
  · show receivables_daysOf load_demo_trial_balance =
      some (89731.16 / 189160.04 * 365)
    rw [receivables_daysOf, demo_net_sales_eq, demo_debtors_eq]
    norm_num
  · show payables_daysOf load_demo_trial_balance =
      some (36572.97 / 70339.27 * 365)
    rw [payables_daysOf, demo_cogs_eq, demo_creditors_eq]
    norm_num

/-- C2, counterexample: for the record set holding only the misc-income row
(code 4900, credit 60.03), the breakdown walk does not chain additively:
the stored gross profit (0) plus the stored operating expenses (0) is not
the stored operating profit (60.03), because operating profit also adds
misc income, which has no breakdown row of its own. -/
theorem C2_breakdown_counterexample :
    (calculate_ratios [⟨4900, "Miscellaneous Income", 0, 60.03, 0 - 60.03⟩]).2 =
      [("Net sales", 0), ("Cost of sales", 0), ("Gross profit", 0),
       ("Operating expenses", 0), ("Operating profit", 60.03),
       ("Finance cost", 0), ("Profit before tax", 60.03)] ∧
    ¬((0 : ℚ) + 0 = 60.03) := by
  constructor
  · simp +decide [calculate_ratios, net_salesOf, salesOf, discountsOf, cogsOf,
      gross_profitOf, expensesOf, ssp_smp_recoveryOf, operating_expensesOf,
      misc_incomeOf, operating_profitOf, finance_costOf, profit_before_taxOf,
      sumBal, bal, sales_codes, cogs_codes, expense_codes]
  · norm_num

/-- C2, amended: for every canonical record set the breakdown is the fixed
7-row walk (net sales, cost of sales, gross profit, operating expenses,
operating profit, finance cost, profit before tax) with cost of sales,
operating expenses and finance cost stored negated, the first and last
links chain additively, and the middle link chains additively once misc
income is added as well. -/
theorem C2_breakdown_amended (df : List AccountRecord) :
    (calculate_ratios df).2 =
      [("Net sales", net_salesOf df),
       ("Cost of sales", -(cogsOf df)),
       ("Gross profit", gross_profitOf df),
       ("Operating expenses", -(operating_expensesOf df)),
       ("Operating profit", operating_profitOf df),
       ("Finance cost", -(finance_costOf df)),
       ("Profit before tax", profit_before_taxOf df)] ∧
    net_salesOf df + -(cogsOf df) = gross_profitOf df ∧
    gross_profitOf df + -(operating_expensesOf df) + misc_incomeOf df =
      operating_profitOf df ∧
    operating_profitOf df + -(finance_costOf df) = profit_before_taxOf df := by
  refine ⟨rfl, ?_, ?_, ?_⟩
  · rw [gross_profitOf]; ring
  · rw [operating_profitOf]; ring
  · rw [profit_before_taxOf]; ring

/-- C3: whenever net_sales is 0 the four net_sales-denominator ratios
(gross, operating and net margin, receivables days) all take the explicit
undefined marker `none`, which is distinct from `some 0`. -/
theorem C3_zero_net_sales_undefined (df : List AccountRecord)
    (h : net_salesOf df = 0) :
    (calculate_ratios df).1.gross_margin_pct = none ∧
    (calculate_ratios df).1.operating_margin_pct = none ∧
    (calculate_ratios df).1.net_margin_pct = none ∧
    (calculate_ratios df).1.receivables_days = none ∧
    (none : Option ℚ) ≠ some 0 := by
  refine ⟨?_, ?_, ?_, ?_, by simp⟩ <;>
    simp [calculate_ratios, gross_margin_pctOf, operating_margin_pctOf,
      net_margin_pctOf, receivables_daysOf, h]

/-- C3, witness: a record set whose only row is a cost row (no revenue
code present) has net_sales 0 and the four ratios undefined. -/
theorem C3_zero_net_sales_witness :
    net_salesOf [⟨5000, "Materials Purchased", 100, 0, 100 - 0⟩] = 0 ∧
    ((calculate_ratios [⟨5000, "Materials Purchased", 100, 0, 100 - 0⟩]).1.gross_margin_pct = none ∧
     (calculate_ratios [⟨5000, "Materials Purchased", 100, 0, 100 - 0⟩]).1.operating_margin_pct = none ∧
     (calculate_ratios [⟨5000, "Materials Purchased", 100, 0, 100 - 0⟩]).1.net_margin_pct = none ∧
     (calculate_ratios [⟨5000, "Materials Purchased", 100, 0, 100 - 0⟩]).1.receivables_days = none ∧
     (none : Option ℚ) ≠ some 0) := by
  have h : net_salesOf [⟨5000, "Materials Purchased", 100, 0, 100 - 0⟩] = 0 := by
    simp +decide [net_salesOf, salesOf, discountsOf, sumBal, bal, sales_codes]
  exact ⟨h, C3_zero_net_sales_undefined _ h⟩

/-- C8: for the single revenue row (code 4000, debit 0, credit 1000) the
engine computes sales as +1000 (the credit balance negated to a positive
magnitude) and the breakdown's "Net sales" amount is +1000, not −1000. -/
theorem C8_sign_convention :
    salesOf [⟨4000, "Sales North", 0, 1000, 0 - 1000⟩] = 1000 ∧
    (calculate_ratios [⟨4000, "Sales North", 0, 1000, 0 - 1000⟩]).1.net_sales =
      1000 ∧
    (calculate_ratios [⟨4000, "Sales North", 0, 1000, 0 - 1000⟩]).2.head? =
      some ("Net sales", 1000) ∧
    (calculate_ratios [⟨4000, "Sales North", 0, 1000, 0 - 1000⟩]).2.head? ≠
      some ("Net sales", -1000) := by
  have hs : salesOf [⟨4000, "Sales North", 0, 1000, 0 - 1000⟩] = 1000 := by
    simp +decide [salesOf, sumBal, sales_codes]
  have hd : discountsOf [⟨4000, "Sales North", 0, 1000, 0 - 1000⟩] = 0 := by
    simp +decide [discountsOf, bal]
  have hn : net_salesOf [⟨4000, "Sales North", 0, 1000, 0 - 1000⟩] = 1000 := by
    rw [net_salesOf, hs, hd]; ring
  refine ⟨hs, hn, ?_, ?_⟩
  · show some ("Net sales", net_salesOf _) = some ("Net sales", 1000)
    rw [hn]
  · show some ("Net sales", net_salesOf _) ≠ some ("Net sales", -1000)
    rw [hn]; simp; norm_num

lemma filter_elim_middle (p : AccountRecord → Bool) (pre post : List AccountRecord)
    (r : AccountRecord) (h : p r = false) :
    List.filter p (pre ++ r :: post) = List.filter p (pre ++ post) := by
  simp [List.filter_append, List.filter_cons, h]

lemma sumBal_elim_middle (pre post : List AccountRecord) (r : AccountRecord)
    (codes : List Nat) (h : r.code ∉ codes) :
    sumBal (pre ++ r :: post) codes = sumBal (pre ++ post) codes := by
  unfold sumBal
  rw [filter_elim_middle _ _ _ _ (by simpa using h)]

lemma bal_elim_middle (pre post : List AccountRecord) (r : AccountRecord)
    (c : Nat) (h : r.code ≠ c) :
    bal (pre ++ r :: post) c = bal (pre ++ post) c := by
  unfold bal
  rw [filter_elim_middle _ _ _ _ (by simpa using h)]

/-- C9: a record whose code is absent from every category set of the
CategoryMap contributes to no computed value: inserting it anywhere in the
input leaves the whole result of calculate_ratios (every ratio and every
breakdown amount) unchanged. -/
theorem C9_unknown_code_excluded (pre post : List AccountRecord)
    (r : AccountRecord) (h : r.code ∉ allCategoryCodes) :
    calculate_ratios (pre ++ r :: post) = calculate_ratios (pre ++ post) := by
  simp only [allCategoryCodes, List.mem_append, not_or, List.mem_singleton,
    List.mem_cons, List.not_mem_nil, or_false] at h
  obtain ⟨⟨⟨⟨⟨⟨⟨⟨⟨⟨⟨hsal, h4009⟩, hcogs⟩, hexp⟩, hssp⟩, h4900⟩, h7903⟩,
    hca⟩, hcl⟩, h1103⟩, h1100⟩, h2100⟩ := h
  have e1 := sumBal_elim_middle pre post r sales_codes hsal
  have e2 := bal_elim_middle pre post r 4009 h4009
  have e3 := sumBal_elim_middle pre post r cogs_codes hcogs
  have e4 := sumBal_elim_middle pre post r expense_codes hexp
  have e5 := sumBal_elim_middle pre post r [7010, 7011] (by
    simpa using hssp)
  have e6 := bal_elim_middle pre post r 4900 h4900
  have e7 := bal_elim_middle pre post r 7903 h7903
  have e8 := sumBal_elim_middle pre post r current_asset_codes hca
  have e9 := sumBal_elim_middle pre post r current_liability_codes hcl
  have e10 := bal_elim_middle pre post r 1103 h1103
  have e11 := bal_elim_middle pre post r 1100 h1100
  have e12 := bal_elim_middle pre post r 2100 h2100
  simp only [calculate_ratios, net_salesOf, salesOf, discountsOf, cogsOf,
    gross_profitOf, gross_margin_pctOf, expensesOf, ssp_smp_recoveryOf,
    operating_expensesOf, misc_incomeOf, operating_profitOf,
    operating_margin_pctOf, finance_costOf, profit_before_taxOf,
    net_margin_pctOf, current_assetsOf, current_liabilitiesOf,
    working_capitalOf, current_ratioOf, quick_assetsOf, quick_ratioOf,
    debtorsOf, creditorsOf, receivables_daysOf, payables_daysOf,
    e1, e2, e3, e4, e5, e6, e7, e8, e9, e10, e11, e12]

/-- C9, witness: inserting the unknown-code row 2310 ("Hire Purchase",
absent from every category set) into a one-row input leaves the result
unchanged. -/
theorem C9_unknown_code_witness :
    calculate_ratios ([] ++ ⟨2310, "Hire Purchase", 0, 1800, 0 - 1800⟩ ::
        [⟨4000, "Sales North", 0, 1000, 0 - 1000⟩]) =
      calculate_ratios ([] ++ [⟨4000, "Sales North", 0, 1000, 0 - 1000⟩]) :=
  C9_unknown_code_excluded [] [⟨4000, "Sales North", 0, 1000, 0 - 1000⟩]
    ⟨2310, "Hire Purchase", 0, 1800, 0 - 1800⟩ (by decide)

/-- C10: a table whose headers resolve but which has zero data rows
normalizes to the empty record set, and on the empty record set the engine
returns 0 for the seven monetary figures and the undefined marker for all
seven division-based ratios. -/
theorem C10_empty_table (t : RawTable) (cols : Nat × Nat × Nat × Nat)
    (h1 : resolve_cols t.headers = some cols) (h2 : t.rows = []) :
    normalise_tb_columns t = .ok [] ∧
    (calculate_ratios []).1 =
      ⟨0, 0, none, 0, none, 0, none, 0, 0, 0, none, none, none, none⟩ := by
  constructor
  · unfold normalise_tb_columns
    rw [h1, h2]
    obtain ⟨a, b, c, d⟩ := cols
    rfl
  · simp [calculate_ratios, net_salesOf, salesOf, discountsOf, cogsOf,
      gross_profitOf, gross_margin_pctOf, expensesOf, ssp_smp_recoveryOf,
      operating_expensesOf, misc_incomeOf, operating_profitOf,
      operating_margin_pctOf, finance_costOf, profit_before_taxOf,
      net_margin_pctOf, current_assetsOf, current_liabilitiesOf,
      working_capitalOf, current_ratioOf, quick_assetsOf, quick_ratioOf,
      debtorsOf, creditorsOf, receivables_daysOf, payables_daysOf,
      sumBal, bal]

/-- C10, witness: the concrete header-only table with the four standard
headings and no data rows. -/
theorem C10_empty_table_witness :
    resolve_cols ["Code", "Name", "Debit", "Credit"] = some (0, 1, 2, 3) ∧
    normalise_tb_columns ⟨["Code", "Name", "Debit", "Credit"], []⟩ = .ok [] ∧
    (calculate_ratios []).1 =
      ⟨0, 0, none, 0, none, 0, none, 0, 0, 0, none, none, none, none⟩ := by
  have h1 : resolve_cols ["Code", "Name", "Debit", "Credit"] =
      some (0, 1, 2, 3) := by decide
  have h := C10_empty_table ⟨["Code", "Name", "Debit", "Credit"], []⟩
    (0, 1, 2, 3) h1 rfl
  exact ⟨h1, h.1, h.2⟩

lemma mkRecord_error_iff (ci ni di cri : Nat) (row : List String) :
    (∃ e, mkRecord ci ni di cri row = .error e) ↔
      firstDigitRun (row.getD ci "") = none := by
  unfold mkRecord
  cases h : firstDigitRun (row.getD ci "") <;> simp [h]

lemma mapRows_error_iff (f : List String → Except SchemaError AccountRecord)
    (rows : List (List String)) :
    (∃ e, mapRows f rows = .error e) ↔ ∃ row ∈ rows, ∃ e, f row = .error e := by
  induction rows with
  | nil => simp [mapRows]
  | cons r rs ih =>
    constructor
    · rintro ⟨e, he⟩
      unfold mapRows at he
      cases hf : f r with
      | error e1 => exact ⟨r, by simp, e1, hf⟩
      | ok a =>
        rw [hf] at he
        cases hm : mapRows f rs with
        | error e2 =>
          obtain ⟨row, hrow, hE⟩ := ih.mp ⟨e2, hm⟩
          exact ⟨row, by simp [hrow], hE⟩
        | ok as =>
          rw [hm] at he
          exact absurd he (by simp)
    · rintro ⟨row, hrow, e, he⟩
      rcases List.mem_cons.mp hrow with rfl | hmem
      · refine ⟨e, ?_⟩
        unfold mapRows
        rw [he]
      · obtain ⟨e2, he2⟩ := ih.mpr ⟨row, hmem, e, he⟩
        unfold mapRows
        cases hf : f r with
        | error e1 => exact ⟨e1, rfl⟩
        | ok a => exact ⟨e2, by rw [he2]⟩

/-- C4: normalization fails (with a SchemaError, producing no record set)
if and only if the four required columns cannot all be resolved, or some
code cell contains no run of decimal digits; otherwise it succeeds for the
whole table. -/
theorem C4_schema_error_iff (t : RawTable) :
    (∃ e, normalise_tb_columns t = .error e) ↔
      (resolve_cols t.headers = none ∨
       ∃ ci ni di cri, resolve_cols t.headers = some (ci, ni, di, cri) ∧
         ∃ row ∈ t.rows, firstDigitRun (row.getD ci "") = none) := by
  unfold normalise_tb_columns
  cases h : resolve_cols t.headers with
  | none => simp [h]
  | some cols =>
    obtain ⟨ci, ni, di, cri⟩ := cols
    simp only [h]
    rw [mapRows_error_iff]
    constructor
    · rintro ⟨row, hrow, e, he⟩
      exact Or.inr ⟨ci, ni, di, cri, rfl, row, hrow,
        (mkRecord_error_iff ci ni di cri row).mp ⟨e, he⟩⟩
    · rintro (hbad | ⟨ci', ni', di', cri', hsome, row, hrow, hnone⟩)
      · exact absurd hbad (by simp)
      · have hof := hsome
        simp only [Option.some.injEq, Prod.mk.injEq] at hof
        obtain ⟨rfl, rfl, rfl, rfl⟩ := hof
        exact ⟨row, hrow, (mkRecord_error_iff ci ni di cri row).mpr hnone⟩

/-- C4, witness: the table whose code cell "xx" has no digit run fails. -/
theorem C4_schema_error_witness :
    ∃ e, normalise_tb_columns
        ⟨["Code", "Name", "Debit", "Credit"], [["xx", "Sales", "1", "2"]]⟩ =
      .error e :=
  (C4_schema_error_iff
      ⟨["Code", "Name", "Debit", "Credit"], [["xx", "Sales", "1", "2"]]⟩).mpr
    (Or.inr ⟨0, 1, 2, 3, by decide, ["xx", "Sales", "1", "2"], by simp,
      by decide⟩)

lemma find_col_first_match (headers : List String) (kw : String) (i : Nat)
    (h : find_col headers kw = some i) :
    i < headers.length ∧ lowerContains (headers.getD i "") kw = true ∧
      ∀ j < i, lowerContains (headers.getD j "") kw = false := by
  induction headers generalizing i with
  | nil => simp [find_col] at h
  | cons c cs ih =>
    rw [find_col] at h
    by_cases hc : lowerContains c kw = true
    · rw [if_pos hc] at h
      obtain rfl : (0 : Nat) = i := Option.some.inj h
      exact ⟨by simp, by simpa using hc, fun j hj => absurd hj (by omega)⟩
    · rw [if_neg hc] at h
      obtain ⟨i', hfi, rfl⟩ := Option.map_eq_some'.mp h
      obtain ⟨hlen, hhit, hbefore⟩ := ih i' hfi
      refine ⟨by simpa using Nat.succ_lt_succ hlen, by simpa using hhit, ?_⟩
      intro j hj
      cases j with
      | zero => simpa using Bool.not_eq_true _ ▸ hc
      | succ j' => simpa using hbefore j' (by omega)

/-- C5: column discovery scans headers case-insensitively for the substring
keywords and the first header in column order containing the keyword wins;
for the code field the fallbacks are tried in the priority order "code",
then "n/c", then "nominal"; headers "Code", "CODE" and "N/C" all resolve
to the code column. -/
theorem C5_column_discovery :
    (∀ (headers : List String) (kw : String) (i : Nat),
        find_col headers kw = some i →
          i < headers.length ∧ lowerContains (headers.getD i "") kw = true ∧
            ∀ j < i, lowerContains (headers.getD j "") kw = false) ∧
    (∀ (headers : List String) (i : Nat),
        find_col headers "code" = some i → code_colOf headers = some i) ∧
    (∀ (headers : List String) (i : Nat),
        find_col headers "code" = none → find_col headers "n/c" = some i →
          code_colOf headers = some i) ∧
    (∀ headers : List String,
        find_col headers "code" = none → find_col headers "n/c" = none →
          code_colOf headers = find_col headers "nominal") ∧
    code_colOf ["Code", "Name", "Debit", "Credit"] = some 0 ∧
    code_colOf ["CODE", "NAME", "DEBIT", "CREDIT"] = some 0 ∧
    code_colOf ["N/C", "Name", "Debit", "Credit"] = some 0 := by
  refine ⟨fun headers kw i h => find_col_first_match headers kw i h,
    ?_, ?_, ?_, by decide, by decide, by decide⟩
  · intro headers i h
    simp [code_colOf, h]
  · intro headers i h0 h1
    simp [code_colOf, h0, h1]
  · intro headers h0 h1
    simp [code_colOf, h0, h1]

/-- C5, witness: on the headers ["N/C", "Name", "Debit", "Credit"] the
keyword "code" finds nothing, "n/c" matches the first header, and the code
column resolves to index 0 through the fallback. -/
theorem C5_column_discovery_witness :
    (0 < (["N/C", "Name", "Debit", "Credit"] : List String).length ∧
      lowerContains ((["N/C", "Name", "Debit", "Credit"] : List String).getD 0 "")
          "n/c" = true ∧
      ∀ j < 0, lowerContains
          ((["N/C", "Name", "Debit", "Credit"] : List String).getD j "")
          "n/c" = false) ∧
    code_colOf ["N/C", "Name", "Debit", "Credit"] = some 0 := by
  have h1 : find_col ["N/C", "Name", "Debit", "Credit"] "n/c" = some 0 := by
    decide
  have h0 : find_col ["N/C", "Name", "Debit", "Credit"] "code" = none := by
    decide
  exact ⟨C5_column_discovery.1 _ "n/c" 0 h1,
    C5_column_discovery.2.2.1 _ 0 h0 h1⟩

lemma mapRows_ok_forall (f : List String → Except SchemaError AccountRecord)
    (rows : List (List String)) (h : ∀ row ∈ rows, ∃ a, f row = .ok a) :
    ∃ recs, mapRows f rows = .ok recs ∧
      List.Forall₂ (fun row rec => f row = .ok rec) rows recs := by
  induction rows with
  | nil => exact ⟨[], rfl, List.Forall₂.nil⟩
  | cons r rs ih =>
    obtain ⟨a, ha⟩ := h r (by simp)
    obtain ⟨as, has, hall⟩ := ih (fun row hrow => h row (by simp [hrow]))
    refine ⟨a :: as, ?_, List.Forall₂.cons ha hall⟩
    unfold mapRows
    rw [ha, has]

/-- C6: when the headers resolve and every code cell has a digit run,
normalization succeeds no matter what the debit/credit cells hold, each
record's debit and credit being the lenient coercion of its cells; and the
coercion maps every unparseable cell to 0. -/
theorem C6_lenient_numeric_coercion (t : RawTable) (ci ni di cri : Nat)
    (h1 : resolve_cols t.headers = some (ci, ni, di, cri))
    (h2 : ∀ row ∈ t.rows, firstDigitRun (row.getD ci "") ≠ none) :
    (∃ recs, normalise_tb_columns t = .ok recs ∧
      List.Forall₂ (fun row rec =>
        AccountRecord.debit rec = to_numeric_fill (row.getD di "") ∧
        AccountRecord.credit rec = to_numeric_fill (row.getD cri "")) t.rows recs) ∧
    ∀ s, parseDec s = none → to_numeric_fill s = 0 := by
  constructor
  · have hex : ∀ row ∈ t.rows, ∃ a, mkRecord ci ni di cri row = .ok a := by
      intro row hrow
      cases hrun : firstDigitRun (row.getD ci "") with
      | none => exact absurd hrun (h2 row hrow)
      | some n =>
        refine ⟨⟨n, row.getD ni "", to_numeric_fill (row.getD di ""),
          to_numeric_fill (row.getD cri ""),
          to_numeric_fill (row.getD di "") -
            to_numeric_fill (row.getD cri "")⟩, ?_⟩
        unfold mkRecord
        rw [hrun]
    obtain ⟨recs, hm, hall⟩ := mapRows_ok_forall (mkRecord ci ni di cri) t.rows hex
    refine ⟨recs, ?_, ?_⟩
    · unfold normalise_tb_columns
      rw [h1]
      exact hm
    · refine hall.imp ?_
      intro row rec hok
      unfold mkRecord at hok
      cases hrun : firstDigitRun (row.getD ci "") with
      | none =>
        rw [hrun] at hok
        exact absurd hok (by simp)
      | some n =>
        rw [hrun] at hok
        have hrec := Except.ok.inj hok
        subst hrec
        exact ⟨rfl, rfl⟩
  · intro s hs
    unfold to_numeric_fill
    rw [hs]
    rfl

/-- C6, witness: a table with non-numeric debit and credit cells still
normalizes, the offending cells coerced. -/
theorem C6_lenient_numeric_witness :
    (∃ recs,
      normalise_tb_columns ⟨["Code", "Name", "Debit", "Credit"],
          [["4000", "Sales", "abc", "xyz"]]⟩ = .ok recs ∧
      List.Forall₂ (fun row rec =>
        AccountRecord.debit rec = to_numeric_fill (row.getD 2 "") ∧
        AccountRecord.credit rec = to_numeric_fill (row.getD 3 ""))
        [["4000", "Sales", "abc", "xyz"]] recs) ∧
    ∀ s, parseDec s = none → to_numeric_fill s = 0 := by
  have h1 : resolve_cols ["Code", "Name", "Debit", "Credit"] =
      some (0, 1, 2, 3) := by decide
  have h2 : ∀ row ∈ [["4000", "Sales", "abc", "xyz"]],
      firstDigitRun (row.getD 0 "") ≠ none := by decide
  exact C6_lenient_numeric_coercion
    ⟨["Code", "Name", "Debit", "Credit"], [["4000", "Sales", "abc", "xyz"]]⟩
    0 1 2 3 h1 h2

lemma mapRows_ok_mem (f : List String → Except SchemaError AccountRecord) :
    ∀ rows recs, mapRows f rows = .ok recs →
      ∀ rec ∈ recs, ∃ row, f row = .ok rec := by
  intro rows
  induction rows with
  | nil =>
    intro recs h
    simp [mapRows] at h
    subst h
    simp
  | cons r rs ih =>
    intro recs h
    unfold mapRows at h
    cases hf : f r with
    | error e =>
      rw [hf] at h
      exact absurd h (by simp)
    | ok a =>
      rw [hf] at h
      cases hm : mapRows f rs with
      | error e =>
        rw [hm] at h
        exact absurd h (by simp)
      | ok as =>
        rw [hm] at h
        have hrec := Except.ok.inj h
        subst hrec
        intro rec hrec
        rcases List.mem_cons.mp hrec with rfl | hmem
        · exact ⟨r, hf⟩
        · exact ih as hm rec hmem

lemma mkRecord_ok_balance (ci ni di cri : Nat) (row : List String)
    (rec : AccountRecord) (h : mkRecord ci ni di cri row = .ok rec) :
    rec.balance = rec.debit - rec.credit := by
  unfold mkRecord at h
  cases hrun : firstDigitRun (row.getD ci "") with
  | none =>
    rw [hrun] at h
    exact absurd h (by simp)
  | some n =>
    rw [hrun] at h
    have hrec := Except.ok.inj h
    subst hrec
    rfl

/-- C7: every AccountRecord produced by normalization, and every row of the
built-in demo dataset, satisfies balance = debit − credit exactly. -/
theorem C7_balance_invariant :
    (∀ (t : RawTable) (recs : List AccountRecord),
        normalise_tb_columns t = .ok recs →
        ∀ r ∈ recs, r.balance = r.debit - r.credit) ∧
    ∀ r ∈ load_demo_trial_balance, r.balance = r.debit - r.credit := by
  constructor
  · intro t recs h r hr
    unfold normalise_tb_columns at h
    cases hres : resolve_cols t.headers with
    | none =>
      rw [hres] at h
      exact absurd h (by simp)
    | some cols =>
      obtain ⟨ci, ni, di, cri⟩ := cols
      rw [hres] at h
      obtain ⟨row, hrow⟩ := mapRows_ok_mem _ _ _ h r hr
      exact mkRecord_ok_balance ci ni di cri row r hrow
  · intro r hr
    simp only [load_demo_trial_balance, List.mem_map] at hr
    obtain ⟨x, hx, rfl⟩ := hr
    rfl

/-- C7, witness: the record normalized from the row (code "4000", debit
"2", credit "1") satisfies the balance invariant. -/
theorem C7_balance_invariant_witness :
    (⟨4000, "Sales", 2, 1, 1⟩ : AccountRecord).balance =
      (⟨4000, "Sales", 2, 1, 1⟩ : AccountRecord).debit -
        (⟨4000, "Sales", 2, 1, 1⟩ : AccountRecord).credit := by
  have hok : normalise_tb_columns ⟨["Code", "Name", "Debit", "Credit"],
      [["4000", "Sales", "2", "1"]]⟩ = .ok [⟨4000, "Sales", 2, 1, 1⟩] := by
    simp +decide [normalise_tb_columns, resolve_cols, code_colOf, find_col,
      lowerContains, lowerL, containsSub, startsWithL, mapRows, mkRecord,
      to_numeric_fill, parseDec, parseUnsigned, trimL, digitsVal,
      firstDigitRun]
    norm_num
  exact C7_balance_invariant.1 _ _ hok _ (by simp)
